import Mathlib

/-!
Verification of the telegram-build-notifier monitoring and notification
logic (src/main.py and src/monitor_app.py), as a shallow embedding.

Conventions of the embedding:
* timestamps are rationals counting seconds since the epoch (the Python
  code renders them through isoformat, an injective presentation we keep
  as the raw number);
* Python float arithmetic on the quantities involved (hours, seconds)
  is modelled exactly over the rationals; Python round uses
  round-half-to-even, modelled by roundHalfEven below;
* environment lookup and the secret store are modelled as functions
  from names to Option String (Option.none meaning the variable or
  secret is absent);
* outbound HTTP effects (Telegram send, health probe) are modelled by
  functions describing the response the network would give, passed in
  as parameters; a function that in Python catches every exception and
  returns a value is modelled as a total Lean function.
-/

namespace TBN

/-- pyTruthy models the Python truthiness of an optional string:
None and the empty string are falsy, everything else truthy. -/
def pyTruthy : Option String → Bool
  | Option.none => false
  | Option.some s => !(s = "")

/-- pyOr models the Python expression a or b for optional strings:
it yields a when a is truthy, otherwise b. -/
def pyOr (a b : Option String) : Option String :=
  if pyTruthy a then a else b

/-- roundHalfEven models Python round to the nearest integer:
round half to even (banker's rounding). -/
def roundHalfEven (q : ℚ) : ℤ :=
  if q - ⌊q⌋ < 1/2 then ⌊q⌋
  else if 1/2 < q - ⌊q⌋ then ⌊q⌋ + 1
  else if ⌊q⌋ % 2 = 0 then ⌊q⌋ else ⌊q⌋ + 1

/-- round1 models Python round(x, 1): rounding to one decimal place. -/
def round1 (q : ℚ) : ℚ := (roundHalfEven (10 * q) : ℚ) / 10

/-- round2 models Python round(x, 2): rounding to two decimal places. -/
def round2 (q : ℚ) : ℚ := (roundHalfEven (100 * q) : ℚ) / 100

/-- Order models one row of the orders table read by the monitoring
query: id, external_order_id, status (a text column), created_at,
updated_at (nullable), retry_count, error_message (nullable). -/
structure Order where
  id : Nat
  external_order_id : String
  status : String
  created_at : ℚ
  updated_at : Option ℚ
  retry_count : Nat
  error_message : Option String
deriving Repr, DecidableEq

/-- StuckJob models one entry of the list built by check_stuck_jobs in
src/main.py: the row fields plus the computed hours_stuck. -/
structure StuckJob where
  id : String
  external_order_id : String
  status : String
  created_at : ℚ
  updated_at : Option ℚ
  retry_count : Nat
  error_message : Option String
  hours_stuck : ℚ
deriving Repr, DecidableEq

/-- createdLe is the comparison used by the ORDER BY created_at ASC
clause of the stuck-jobs query. -/
def createdLe (a b : Order) : Prop := a.created_at ≤ b.created_at

instance : DecidableRel createdLe := fun a b => inferInstanceAs (Decidable (a.created_at ≤ b.created_at))

instance : IsTotal Order createdLe := ⟨fun a b => le_total a.created_at b.created_at⟩

instance : IsTrans Order createdLe := ⟨fun _ _ _ h h2 => le_trans h h2⟩

/-- isStuckRow is the WHERE clause of the stuck-jobs query in
src/main.py: status IN (PENDING, PROCESSING) AND created_at < cutoff. -/
def isStuckRow (cutoff : ℚ) (o : Order) : Bool :=
  (o.status = "PENDING" || o.status = "PROCESSING") && decide (o.created_at < cutoff)

/-- toStuckJob builds the dict appended per row in check_stuck_jobs:
hours_stuck is EXTRACT(EPOCH FROM (NOW() - created_at))/3600 rounded to
one decimal by Python round. -/
def toStuckJob (now : ℚ) (o : Order) : StuckJob :=
  { id := toString o.id
    external_order_id := o.external_order_id
    status := o.status
    created_at := o.created_at
    updated_at := o.updated_at
    retry_count := o.retry_count
    error_message := o.error_message
    hours_stuck := round1 ((now - o.created_at) / 3600) }

/-- check_stuck_jobs models the function of the same name in
src/main.py: cutoff_time is now minus 24 hours, the query selects the
orders with status PENDING or PROCESSING created before the cutoff,
ordered by created_at ascending, and each row is turned into a
StuckJob entry. The SQL engine is modelled relationally: the table
is a list of rows, the WHERE clause a filter, ORDER BY a sort. -/
def check_stuck_jobs (orders : List Order) (now : ℚ) : List StuckJob :=
  let cutoff_time := now - 24 * 3600
  ((orders.filter (isStuckRow cutoff_time)).insertionSort createdLe).map (toStuckJob now)

/-- ProbeResult models what the network gives back for one GET issued
by check_worker_health: either an HTTP response with a status code and
the elapsed round-trip seconds, or a requests.exceptions.RequestException
carrying its message. -/
inductive ProbeResult where
  | response (status : Nat) (elapsed : ℚ)
  | netError (msg : String)
deriving Repr, DecidableEq

/-- HealthStatus models the health_status dict of check_worker_health in
src/main.py. All four keys are always present in that dict (it is built
with them up front), so the structure has all four fields; url,
response_time and error hold None initially, modelled by Option. -/
structure HealthStatus where
  healthy : Bool
  url : Option String
  response_time : Option ℚ
  error : Option String
deriving Repr, DecidableEq

/-- defaultWorkerUrl is the hard-coded fallback URL of
check_worker_health in src/main.py. -/
def defaultWorkerUrl : String :=
  "https://lunette-invoicing-898902894034.europe-west1.run.app/api/v1"

/-- rstripSlash models the Python expression url.rstrip with the slash
argument: trailing slash characters are removed; spelled over the
character list of the string. -/
def rstripSlash (s : String) : String :=
  ⟨(s.data.reverse.dropWhile (· = '/')).reverse⟩

/-- healthUrl models the health_url expression of check_worker_health:
the candidate URL with trailing slashes stripped, then /health. -/
def healthUrl (url : String) : String :=
  rstripSlash url ++ "/health"

/-- workerUrls is the worker_urls list of check_worker_health: the
WORKER_SERVICE_URL environment value with the hard-coded URL as
os.getenv default, then the hard-coded URL again. -/
def workerUrls (workerServiceUrl : Option String) : List String :=
  [workerServiceUrl.getD defaultWorkerUrl, defaultWorkerUrl]

/-- checkWorkerHealthLoop models the for-loop of check_worker_health:
a 200 response updates every field and breaks; any other response
records the error HTTP code and continues; a request exception records
its message and continues. -/
def checkWorkerHealthLoop (probe : String → ProbeResult) :
    List String → HealthStatus → HealthStatus
  | [], hs => hs
  | url :: rest, hs =>
    match probe (healthUrl url) with
    | ProbeResult.response code elapsed =>
        if code = 200 then
          { healthy := true
            url := Option.some (healthUrl url)
            response_time := Option.some (round2 elapsed)
            error := Option.none }
        else
          checkWorkerHealthLoop probe rest
            { hs with error := Option.some ("HTTP " ++ toString code) }
    | ProbeResult.netError msg =>
        checkWorkerHealthLoop probe rest { hs with error := Option.some msg }

/-- check_worker_health models the function of the same name in
src/main.py: probe each candidate URL in order starting from the
initial all-empty health_status dict. -/
def check_worker_health (workerServiceUrl : Option String)
    (probe : String → ProbeResult) : HealthStatus :=
  checkWorkerHealthLoop probe (workerUrls workerServiceUrl)
    { healthy := false, url := Option.none
      response_time := Option.none, error := Option.none }

/-- pyShowOptStr models how a Python f-string renders an optional
string value: None prints as the four letters None. -/
def pyShowOptStr : Option String → String
  | Option.none => "None"
  | Option.some s => s

/-- showOneDec renders a non-negative rational with one decimal digit
the way Python prints the corresponding float (the hours_stuck values
interpolated by the formatter are such numbers). -/
def showOneDec (q : ℚ) : String :=
  let n : ℤ := ⌊q * 10⌋
  toString (n / 10) ++ "." ++ toString (n % 10)

/-- truncatedError models the error_msg expression of
format_stuck_jobs_alert: messages longer than 100 characters are cut
to 100 characters and suffixed with an ellipsis marker. -/
def truncatedError (e : String) : String :=
  if 100 < e.length then e.take 100 ++ "..." else e

/-- jobDetailParts models the strings appended to message_parts for one
job inside the loop of format_stuck_jobs_alert, including the error
line that is emitted only when error_message is truthy, and the
trailing blank line. -/
def jobDetailParts (job : StuckJob) : List String :=
  ["📋 Order: <code>" ++ job.external_order_id ++ "</code>",
   "⏱ Stuck: " ++ showOneDec job.hours_stuck ++ " hours (" ++ job.status ++ ")",
   "🔄 Retries: " ++ toString job.retry_count]
  ++ (match job.error_message with
      | Option.some e => if e = "" then [] else ["❌ Error: <code>" ++ truncatedError e ++ "</code>"]
      | Option.none => [])
  ++ [""]

/-- stuckAlertParts models the full message_parts list of
format_stuck_jobs_alert for a non-empty job list: the three header
parts, the detail parts of the first five jobs, and the summary part
when more than five jobs exist. -/
def stuckAlertParts (stuck_jobs : List StuckJob) : List String :=
  ["🚨 <b>STUCK JOBS ALERT</b>",
   "Found " ++ toString stuck_jobs.length ++ " jobs stuck for more than 24 hours:",
   ""]
  ++ (stuck_jobs.take 5).flatMap jobDetailParts
  ++ (if 5 < stuck_jobs.length
      then ["... and " ++ toString (stuck_jobs.length - 5) ++ " more stuck jobs"]
      else [])

/-- format_stuck_jobs_alert models the function of the same name in
src/main.py: empty string on an empty list, otherwise the parts joined
with newlines. -/
def format_stuck_jobs_alert (stuck_jobs : List StuckJob) : String :=
  if stuck_jobs.isEmpty then ""
  else String.intercalate "\n" (stuckAlertParts stuck_jobs)

/-- format_worker_health_alert models the function of the same name in
src/main.py. The source reads health_status.get with the defaults
Multiple URLs tried and Unknown error, but check_worker_health always
stores the url and error keys (possibly holding None), so on statuses
built by the prober the dict lookup returns the stored value and the
f-string renders None as the literal text None; the get defaults are
dead for such inputs, which the embedding of the always-keyed dict as
a structure reflects. -/
def format_worker_health_alert (hs : HealthStatus) : String :=
  if hs.healthy then ""
  else
    "🔴 <b>WORKER HEALTH ALERT</b>\n\nThe invoicing worker service is not responding!\n\n"
    ++ "❌ Status: Unhealthy\n"
    ++ "🌐 Last checked: " ++ pyShowOptStr hs.url ++ "\n"
    ++ "⚠️ Error: " ++ pyShowOptStr hs.error ++ "\n\n"
    ++ "This means new invoice jobs may not be processed."

/-- resolve_alert_bot_token models the bot_token expression of
send_telegram_alert in src/main.py: the BOT_TOKEN environment value or,
when that is falsy, the TELEGRAM_BOT_TOKEN secret. env and secrets map
names to Option String; get_secret returns None on any failure. -/
def resolve_alert_bot_token (env secrets : String → Option String) : Option String :=
  pyOr (env "BOT_TOKEN") (secrets "TELEGRAM_BOT_TOKEN")

/-- resolve_alert_chat_id models the chat_id expression of
send_telegram_alert in src/main.py. -/
def resolve_alert_chat_id (env secrets : String → Option String) : Option String :=
  pyOr (env "CHAT_ID") (secrets "TELEGRAM_CHAT_ID")

/-- resolve_database_url models get_database_connection in src/main.py
up to the point the connection string is known: the function reads only
the DATABASE_URL secret (get_secret), never the environment. -/
def resolve_database_url (_env secrets : String → Option String) : Option String :=
  secrets "DATABASE_URL"

/-- resolve_worker_url models the first worker_urls entry of
check_worker_health in src/main.py: os.getenv with the hard-coded URL
as default; the secret store is not consulted. -/
def resolve_worker_url (env : String → Option String) : String :=
  (env "WORKER_SERVICE_URL").getD defaultWorkerUrl

/-- resolve_notifier_bot_token models the BOT_TOKEN lookup at the top
of build_notifier, invoice_notifier and unified_notifier in
src/main.py: os.environ.get only, no secret fallback. -/
def resolve_notifier_bot_token (env : String → Option String) : Option String :=
  env "BOT_TOKEN"

/-- resolve_notifier_chat_id models the CHAT_ID lookup at the top of
the event notifiers in src/main.py: os.environ.get only. -/
def resolve_notifier_chat_id (env : String → Option String) : Option String :=
  env "CHAT_ID"

/-- EventDoc models a decoded inbound JSON document, restricted to the
fields the notifiers read. A field is None when the key is absent;
present values are recorded by the text a Python f-string would render
for them (the payload shapes carry strings, and amount a number whose
printed form is recorded). -/
structure EventDoc where
  status : Option String
  projectId : Option String
  id : Option String
  repoName : Option String
  branchName : Option String
  event_type : Option String
  invoice_id : Option String
  external_order_id : Option String
  customer_name : Option String
  amount : Option String
  currency : Option String
  error_message : Option String
deriving Repr, DecidableEq

/-- RunResult records what one notifier invocation did: the message
texts posted to the Telegram API, in order, and the diagnostic lines
printed. A notifier invocation is a total function into RunResult,
modelling that its try and except blocks let no exception escape. -/
structure RunResult where
  messages : List String
  logs : List String
deriving Repr, DecidableEq

/-- buildFinalStatuses is the status list of the finality check in
build_notifier. -/
def buildFinalStatuses : List String := ["SUCCESS", "FAILURE", "TIMEOUT", "CANCELLED"]

/-- statusIsFinal models the Python membership test status in
buildFinalStatuses, where status may be None. -/
def statusIsFinal : Option String → Bool
  | Option.some s => s ∈ buildFinalStatuses
  | Option.none => false

/-- buildBody is the part of the build message after the emoji: the
status headline, then the project, repo, branch and build id lines. -/
def buildBody (d : EventDoc) : String :=
  " *Build " ++ pyShowOptStr d.status ++ "*\n"
  ++ "📁 Project: `" ++ pyShowOptStr d.projectId ++ "`\n"
  ++ "🔗 Repo: `" ++ d.repoName.getD "Unknown" ++ "`\n"
  ++ "🌿 Branch: `" ++ d.branchName.getD "Unknown" ++ "`\n"
  ++ "🆔 Build ID: `" ++ pyShowOptStr d.id ++ "`"

/-- buildMessage models the message built by build_notifier for a final
status: the success marker exactly for SUCCESS, the failure marker for
every other status, followed by the body lines. -/
def buildMessage (d : EventDoc) : String :=
  (if d.status = Option.some "SUCCESS" then "✅" else "❌") ++ buildBody d

/-- build_handle models the decoded part of the try-block of
build_notifier: a final status posts exactly one message through
send_telegram_message, which raises on a non-200 Telegram response,
caught by the except block; a non-final status posts nothing. tg gives
the Telegram API status code and response text for a message; raw is
the rendering of the triggering cloud event used by the except print. -/
def build_handle (tg : String → Nat × String) (raw : String) (d : EventDoc) : RunResult :=
  if statusIsFinal d.status then
    let message := buildMessage d
    match tg message with
    | (200, _) =>
        { messages := [message]
          logs := ["Successfully sent build notification for build " ++ pyShowOptStr d.id] }
    | (code, text) =>
        { messages := [message]
          logs := ["Failed to send notification: " ++ text,
                   "Error processing build notification: Telegram API error: " ++ toString code,
                   "Cloud event data: " ++ raw] }
  else { messages := [], logs := ["Ignoring build status: " ++ pyShowOptStr d.status] }

/-- build_notifier models the function of the same name in src/main.py:
the environment check, then the try-block decoding the payload (decode
models base64 plus JSON parsing of the raw data, returning the error
text on failure) and handling the document; the except block logs the
failure and the raw input and posts nothing. -/
def build_notifier (botToken chatId : Option String) (tg : String → Nat × String)
    (decode : String → Except String EventDoc) (raw : String) : RunResult :=
  if !(pyTruthy botToken) || !(pyTruthy chatId) then
    { messages := [], logs := ["Missing BOT_TOKEN or CHAT_ID environment variables"] }
  else
    match decode raw with
    | Except.error e =>
        { messages := []
          logs := ["Error processing build notification: " ++ e,
                   "Cloud event data: " ++ raw] }
    | Except.ok d => build_handle tg raw d

/-- invoiceMessage models the message construction of invoice_notifier
in src/main.py, branch for branch, reproducing its exact newline
placement (the creation-failure and completion branches leave a
trailing newline before an optional error suffix; the completion-issue
branch appends the error directly after the status line). -/
def invoiceMessage (d : EventDoc) : String :=
  let event_type := d.event_type.getD "invoice_creation"
  let customer_name := d.customer_name.getD "Unknown"
  let currency := d.currency.getD "EUR"
  let errSuffix := fun (pre : String) =>
    match d.error_message with
    | Option.some e => if e = "" then "" else pre ++ "🚨 Error: `" ++ e ++ "`"
    | Option.none => ""
  if event_type = "invoice_creation" then
    if d.status = Option.some "success" then
      "💰 *Invoice Created Successfully*\n"
      ++ "🧾 Invoice ID: `" ++ pyShowOptStr d.invoice_id ++ "`\n"
      ++ "📋 Order ID: `" ++ pyShowOptStr d.external_order_id ++ "`\n"
      ++ "👤 Customer: `" ++ customer_name ++ "`\n"
      ++ "💵 Amount: `" ++ pyShowOptStr d.amount ++ " " ++ currency ++ "`"
    else if d.status = Option.some "failure" then
      "❌ *Invoice Creation Failed*\n"
      ++ "📋 Order ID: `" ++ pyShowOptStr d.external_order_id ++ "`\n"
      ++ "👤 Customer: `" ++ customer_name ++ "`\n"
      ++ errSuffix ""
    else
      "⏳ *Invoice Creation Attempt*\n"
      ++ "📋 Order ID: `" ++ pyShowOptStr d.external_order_id ++ "`\n"
      ++ "👤 Customer: `" ++ customer_name ++ "`\n"
      ++ "📊 Status: `" ++ pyShowOptStr d.status ++ "`"
  else if event_type = "invoice_completion" then
    if d.status = Option.some "success" then
      "✅ *Invoice Completed & Fiscalized*\n"
      ++ "🧾 Invoice ID: `" ++ pyShowOptStr d.invoice_id ++ "`\n"
      ++ "📋 Order ID: `" ++ pyShowOptStr d.external_order_id ++ "`\n"
      ++ "👤 Customer: `" ++ customer_name ++ "`\n"
      ++ "💵 Amount: `" ++ pyShowOptStr d.amount ++ " " ++ currency ++ "`"
    else
      "⚠️ *Invoice Completion Issue*\n"
      ++ "🧾 Invoice ID: `" ++ pyShowOptStr d.invoice_id ++ "`\n"
      ++ "📋 Order ID: `" ++ pyShowOptStr d.external_order_id ++ "`\n"
      ++ "📊 Status: `" ++ pyShowOptStr d.status ++ "`"
      ++ errSuffix ""
  else
    "📄 *Invoice Event: " ++ event_type ++ "*\n"
    ++ "🧾 Invoice ID: `" ++ pyShowOptStr d.invoice_id ++ "`\n"
    ++ "📋 Order ID: `" ++ pyShowOptStr d.external_order_id ++ "`\n"
    ++ "📊 Status: `" ++ pyShowOptStr d.status ++ "`"

/-- invoice_handle models the decoded part of the try-block of
invoice_notifier: every decoded invoice document posts exactly one
message. -/
def invoice_handle (tg : String → Nat × String) (raw : String) (d : EventDoc) : RunResult :=
  let message := invoiceMessage d
  match tg message with
  | (200, _) =>
      { messages := [message]
        logs := ["Successfully sent invoice notification for "
                 ++ d.event_type.getD "invoice_creation" ++ ": " ++ pyShowOptStr d.invoice_id] }
  | (code, text) =>
      { messages := [message]
        logs := ["Failed to send notification: " ++ text,
                 "Error processing invoice notification: Telegram API error: " ++ toString code,
                 "Cloud event data: " ++ raw] }

/-- invoice_notifier models the function of the same name in
src/main.py. -/
def invoice_notifier (botToken chatId : Option String) (tg : String → Nat × String)
    (decode : String → Except String EventDoc) (raw : String) : RunResult :=
  if !(pyTruthy botToken) || !(pyTruthy chatId) then
    { messages := [], logs := ["Missing BOT_TOKEN or CHAT_ID environment variables"] }
  else
    match decode raw with
    | Except.error e =>
        { messages := []
          logs := ["Error processing invoice notification: " ++ e,
                   "Cloud event data: " ++ raw] }
    | Except.ok d => invoice_handle tg raw d

/-- unified_notifier models the function of the same name in
src/main.py: after the environment check it decodes the payload inside
a try-block; a document holding all of projectId, status and id is
dispatched to build_notifier, one holding event_type or invoice_id to
invoice_notifier (both re-decode the same payload with the same
outcome), anything else is logged as unknown; a decode failure is
caught by the except block, which logs the error and the raw input and
posts nothing. -/
def unified_notifier (botToken chatId : Option String) (tg : String → Nat × String)
    (decode : String → Except String EventDoc) (raw : String) : RunResult :=
  if !(pyTruthy botToken) || !(pyTruthy chatId) then
    { messages := [], logs := ["Missing BOT_TOKEN or CHAT_ID environment variables"] }
  else
    match decode raw with
    | Except.error e =>
        { messages := []
          logs := ["Error processing unified notification: " ++ e,
                   "Cloud event data: " ++ raw] }
    | Except.ok d =>
        if d.projectId.isSome && d.status.isSome && d.id.isSome then
          build_notifier botToken chatId tg decode raw
        else if d.event_type.isSome || d.invoice_id.isSome then
          invoice_notifier botToken chatId tg decode raw
        else
          { messages := [], logs := ["Unknown event type: " ++ reprStr d] }

/-- isoformat is the stand-in rendering of a timestamp used where the
source interpolates datetime.utcnow().isoformat(); an injective
presentation whose exact text no claim depends on. -/
def isoformat (t : ℚ) : String := toString t

/-- monitoringErrorAlert is the error alert built in the except block
of monitor_invoicing_system in src/main.py: the error text truncated to
200 characters plus the timestamp. -/
def monitoringErrorAlert (e : String) (now : ℚ) : String :=
  "🚨 <b>MONITORING SYSTEM ERROR</b>\n\nThe invoicing monitoring system encountered an error:\n\n"
  ++ "❌ Error: <code>" ++ e.take 200 ++ "</code>\n"
  ++ "⏰ Time: " ++ isoformat now ++ "\n\n"
  ++ "Please check the Cloud Function logs for more details."

/-- composeAlerts models the alerts list built by both orchestrators:
when the detector found jobs, the stuck-jobs alert is formatted and
appended if non-empty; when the prober reports unhealthy, the health
alert is formatted and appended if non-empty. -/
def composeAlerts (stuck_jobs : List StuckJob) (health : HealthStatus) : List String :=
  (if !stuck_jobs.isEmpty then
    (let a := format_stuck_jobs_alert stuck_jobs; if a ≠ "" then [a] else [])
   else [])
  ++ (if !health.healthy then
    (let a := format_worker_health_alert health; if a ≠ "" then [a] else [])
   else [])

/-- MonitorSummary models the dict returned by the success path of
monitor_invoicing_system. -/
structure MonitorSummary where
  status : String
  timestamp : ℚ
  stuck_jobs_count : Nat
  worker_healthy : Bool
  alerts_sent : Nat
deriving Repr, DecidableEq

/-- MonitorOutcome records one invocation of monitor_invoicing_system:
whether get_database_connection returned a session, whether the
db_session.close() line executed, the returned summary (success path)
or error text (except path, returned with HTTP 500), the alerts list
composed, and the outcome of each send_telegram_alert call made. -/
structure MonitorOutcome where
  acquired : Bool
  released : Bool
  summary : Option MonitorSummary
  errorStatus : Option String
  alerts : List String
  sent : List Bool
deriving Repr, DecidableEq

/-- monitor_invoicing_system models the function of the same name in
src/main.py. acquire models get_database_connection (raising when the
DATABASE_URL secret is missing or the engine cannot be built); store
models the execution of the stuck-jobs query against the orders table,
raising on a store failure. The except block catches either raise,
sends the error alert, and returns the error dict; the
db_session.close() line sits on the success path only, after the send
loop, so it executes exactly when no exception was raised. -/
def monitor_invoicing_system (acquire : Except String Unit)
    (store : Except String (List Order)) (now : ℚ)
    (workerServiceUrl : Option String) (probe : String → ProbeResult)
    (sendOk : String → Bool) : MonitorOutcome :=
  match acquire with
  | Except.error e =>
      { acquired := false, released := false
        summary := Option.none, errorStatus := Option.some e
        alerts := [], sent := [sendOk (monitoringErrorAlert e now)] }
  | Except.ok _ =>
    match store with
    | Except.error e =>
        { acquired := true, released := false
          summary := Option.none, errorStatus := Option.some e
          alerts := [], sent := [sendOk (monitoringErrorAlert e now)] }
    | Except.ok orders =>
        let stuck_jobs := check_stuck_jobs orders now
        let health := check_worker_health workerServiceUrl probe
        let alerts := composeAlerts stuck_jobs health
        { acquired := true, released := true
          summary := Option.some
            { status := "completed", timestamp := now
              stuck_jobs_count := stuck_jobs.length
              worker_healthy := health.healthy
              alerts_sent := alerts.length }
          errorStatus := Option.none
          alerts := alerts
          sent := alerts.map sendOk }

/-- dashboardErrorAlert is the error alert built in the except block of
monitor_dashboard in src/monitor_app.py; it differs from the Cloud
Function one only in its closing line. -/
def dashboardErrorAlert (e : String) (now : ℚ) : String :=
  "🚨 <b>MONITORING SYSTEM ERROR</b>\n\nThe invoicing monitoring system encountered an error:\n\n"
  ++ "❌ Error: <code>" ++ e.take 200 ++ "</code>\n"
  ++ "⏰ Time: " ++ isoformat now ++ "\n\n"
  ++ "Please check the service logs for more details."

/-- DashboardSummary models the result dict built by the success path
of monitor_dashboard in src/monitor_app.py. -/
structure DashboardSummary where
  status : String
  overall_status : String
  timestamp : ℚ
  stuck_jobs_count : Nat
  stuck_jobs : List StuckJob
  worker_healthy : Bool
  worker_status : HealthStatus
  alerts_sent : Nat
  telegram_alert_sent : Bool
deriving Repr, DecidableEq

/-- DashboardOutcome records one invocation of monitor_dashboard, with
the same lifecycle fields as MonitorOutcome. -/
structure DashboardOutcome where
  acquired : Bool
  released : Bool
  summary : Option DashboardSummary
  errorStatus : Option String
  alerts : List String
  sent : List Bool
deriving Repr, DecidableEq

/-- monitor_dashboard models the function of the same name in
src/monitor_app.py (the monitoring computation shared by its json and
html renderings): same pass structure as monitor_invoicing_system,
additionally computing overall_status and whether at least one
Telegram send succeeded; its db_session.close() line likewise sits on
the success path only. -/
def monitor_dashboard (acquire : Except String Unit)
    (store : Except String (List Order)) (now : ℚ)
    (workerServiceUrl : Option String) (probe : String → ProbeResult)
    (sendOk : String → Bool) : DashboardOutcome :=
  match acquire with
  | Except.error e =>
      { acquired := false, released := false
        summary := Option.none, errorStatus := Option.some e
        alerts := [], sent := [sendOk (dashboardErrorAlert e now)] }
  | Except.ok _ =>
    match store with
    | Except.error e =>
        { acquired := true, released := false
          summary := Option.none, errorStatus := Option.some e
          alerts := [], sent := [sendOk (dashboardErrorAlert e now)] }
    | Except.ok orders =>
        let stuck_jobs := check_stuck_jobs orders now
        let health := check_worker_health workerServiceUrl probe
        let alerts := composeAlerts stuck_jobs health
        let outcomes := alerts.map sendOk
        { acquired := true, released := true
          summary := Option.some
            { status := "completed"
              overall_status :=
                if !stuck_jobs.isEmpty || !health.healthy then "issues" else "healthy"
              timestamp := now
              stuck_jobs_count := stuck_jobs.length
              stuck_jobs := stuck_jobs
              worker_healthy := health.healthy
              worker_status := health
              alerts_sent := alerts.length
              telegram_alert_sent := outcomes.any id }
          errorStatus := Option.none
          alerts := alerts
          sent := outcomes }

/-- demoOrder is a concrete stuck order used to instantiate the
universally quantified theorems. -/
def demoOrder : Order :=
  { id := 7, external_order_id := "ord-7", status := "PENDING"
    created_at := 0, updated_at := Option.none
    retry_count := 2, error_message := Option.some "boom" }

theorem floor_le_roundHalfEven (x : ℚ) : ⌊x⌋ ≤ roundHalfEven x := by
  unfold roundHalfEven
  split_ifs <;> omega

theorem le_roundHalfEven (n : ℤ) (x : ℚ) (h : (n : ℚ) ≤ x) : n ≤ roundHalfEven x :=
  le_trans (Int.le_floor.mpr h) (floor_le_roundHalfEven x)

theorem le_round1 (n : ℤ) (x : ℚ) (h : (n : ℚ) ≤ x) : (n : ℚ) ≤ round1 x := by
  unfold round1
  rw [le_div_iff₀ (by norm_num : (0:ℚ) < 10)]
  have h10 : ((10 * n : ℤ) : ℚ) ≤ 10 * x := by push_cast; linarith
  have := le_roundHalfEven (10 * n) (10 * x) h10
  calc (n : ℚ) * 10 = ((10 * n : ℤ) : ℚ) := by push_cast; ring
    _ ≤ (roundHalfEven (10 * x) : ℚ) := by exact_mod_cast this

theorem isStuckRow_eq_decide (cutoff : ℚ) (o : Order) :
    isStuckRow cutoff o =
      decide ((o.status = "PENDING" ∨ o.status = "PROCESSING") ∧ o.created_at < cutoff) := by
  unfold isStuckRow
  by_cases h1 : o.status = "PENDING" <;> by_cases h2 : o.status = "PROCESSING" <;>
    by_cases h3 : o.created_at < cutoff <;> simp [h1, h2, h3]

/-- C4: check_stuck_jobs returns exactly the stuck-job entries of the
orders with status PENDING or PROCESSING and created_at strictly
earlier than now minus 24 hours — a permutation of the qualifying
rows, so none omitted and no other included — and its output is sorted
ascending by created_at. -/
theorem check_stuck_jobs_exact (orders : List Order) (now : ℚ) :
    List.Perm (check_stuck_jobs orders now)
      ((orders.filter (fun o =>
          decide ((o.status = "PENDING" ∨ o.status = "PROCESSING")
            ∧ o.created_at < now - 24 * 3600))).map (toStuckJob now))
    ∧ List.Sorted (fun a b : StuckJob => a.created_at ≤ b.created_at)
        (check_stuck_jobs orders now) := by
  have hfilter : orders.filter (isStuckRow (now - 24 * 3600)) =
      orders.filter (fun o => decide ((o.status = "PENDING" ∨ o.status = "PROCESSING")
        ∧ o.created_at < now - 24 * 3600)) :=
    List.filter_congr (fun o _ => isStuckRow_eq_decide _ o)
  constructor
  · show List.Perm
      (((orders.filter (isStuckRow (now - 24 * 3600))).insertionSort createdLe).map (toStuckJob now)) _
    rw [← hfilter]
    exact (List.perm_insertionSort createdLe _).map _
  · show List.Sorted _
      (((orders.filter (isStuckRow (now - 24 * 3600))).insertionSort createdLe).map (toStuckJob now))
    have hs := List.sorted_insertionSort createdLe (orders.filter (isStuckRow (now - 24 * 3600)))
    exact List.Pairwise.map _ (fun {a b} (h : createdLe a b) => h) hs

/-- Witness for C4 at a concrete table and instant. -/
theorem check_stuck_jobs_exact_witness :
    List.Sorted (fun a b : StuckJob => a.created_at ≤ b.created_at)
      (check_stuck_jobs [demoOrder] 100000) :=
  (check_stuck_jobs_exact [demoOrder] 100000).2

/-- C7: every entry reported by check_stuck_jobs has hours_stuck equal
to the elapsed time now minus created_at in hours rounded to one
decimal place, and hours_stuck is at least 24.0. -/
theorem hours_stuck_spec (orders : List Order) (now : ℚ) (j : StuckJob)
    (hj : j ∈ check_stuck_jobs orders now) :
    j.hours_stuck = round1 ((now - j.created_at) / 3600) ∧ (24 : ℚ) ≤ j.hours_stuck := by
  simp only [check_stuck_jobs] at hj
  rcases List.mem_map.mp hj with ⟨o, ho, rfl⟩
  have ho2 : o ∈ orders.filter (isStuckRow (now - 24 * 3600)) :=
    (List.mem_insertionSort createdLe).mp ho
  have hrow : isStuckRow (now - 24 * 3600) o = true := (List.mem_filter.mp ho2).2
  rw [isStuckRow_eq_decide] at hrow
  have hlt : o.created_at < now - 24 * 3600 := (of_decide_eq_true hrow).2
  refine ⟨rfl, ?_⟩
  show (24 : ℚ) ≤ round1 ((now - o.created_at) / 3600)
  have h24 : ((24 : ℤ) : ℚ) ≤ (now - o.created_at) / 3600 := by
    rw [le_div_iff₀ (by norm_num : (0:ℚ) < 3600)]
    push_cast
    linarith
  have := le_round1 24 ((now - o.created_at) / 3600) h24
  exact_mod_cast this

/-- Witness for C7: the single stuck job of the demo table. -/
theorem hours_stuck_spec_witness :
    (toStuckJob 100000 demoOrder).hours_stuck =
      round1 ((100000 - (toStuckJob 100000 demoOrder).created_at) / 3600)
    ∧ (24 : ℚ) ≤ (toStuckJob 100000 demoOrder).hours_stuck :=
  hours_stuck_spec [demoOrder] 100000 (toStuckJob 100000 demoOrder)
    (by
      have h : isStuckRow (100000 - 24 * 3600) demoOrder = true := by
        simp only [isStuckRow, demoOrder]
        norm_num
      simp [check_stuck_jobs, h, List.filter])

/-- demoJob is a concrete stuck-job entry used to instantiate the
formatter theorems. -/
def demoJob : StuckJob :=
  { id := "7", external_order_id := "ord-7", status := "PENDING"
    created_at := 0, updated_at := Option.none, retry_count := 2
    error_message := Option.some "boom", hours_stuck := 278 / 10 }

/-- demoJobs7 is a concrete list of seven stuck jobs. -/
def demoJobs7 : List StuckJob :=
  [demoJob, demoJob, demoJob, demoJob, demoJob, demoJob, demoJob]

/-- C6: format_stuck_jobs_alert returns the empty string on the empty
list; on a non-empty list it is the newline join of the header naming
the total count, then the detail parts of at most the first five jobs
in detector order, then — exactly when more than five jobs exist — a
closing line naming how many were omitted; and a present error message
is truncated to 100 characters with a trailing ellipsis marker exactly
when it exceeds 100 characters. -/
theorem format_stuck_jobs_alert_spec (jobs : List StuckJob) :
    (jobs = [] → format_stuck_jobs_alert jobs = "")
  ∧ (jobs ≠ [] → format_stuck_jobs_alert jobs = String.intercalate "\n"
      (["🚨 <b>STUCK JOBS ALERT</b>",
        "Found " ++ toString jobs.length ++ " jobs stuck for more than 24 hours:",
        ""]
       ++ (jobs.take 5).flatMap jobDetailParts
       ++ (if 5 < jobs.length
           then ["... and " ++ toString (jobs.length - 5) ++ " more stuck jobs"]
           else [])))
  ∧ (jobs.take 5).length = min 5 jobs.length
  ∧ (∀ e : String, 100 < e.length → truncatedError e = e.take 100 ++ "...")
  ∧ (∀ e : String, e.length ≤ 100 → truncatedError e = e) := by
  refine ⟨?_, ?_, ?_, ?_, ?_⟩
  · intro h; subst h; rfl
  · intro h
    unfold format_stuck_jobs_alert
    rw [if_neg (by simpa using h)]
    rfl
  · simp [List.length_take]
  · intro e he; unfold truncatedError; rw [if_pos he]
  · intro e he; unfold truncatedError; rw [if_neg (not_lt.mpr he)]

/-- Witness for C6 on seven jobs: the closing line names the two
omitted jobs and only the first five are rendered. -/
theorem format_stuck_jobs_alert_spec_witness :
    format_stuck_jobs_alert demoJobs7 = String.intercalate "\n"
      (["🚨 <b>STUCK JOBS ALERT</b>",
        "Found " ++ toString demoJobs7.length ++ " jobs stuck for more than 24 hours:",
        ""]
       ++ (demoJobs7.take 5).flatMap jobDetailParts
       ++ (if 5 < demoJobs7.length
           then ["... and " ++ toString (demoJobs7.length - 5) ++ " more stuck jobs"]
           else [])) :=
  (format_stuck_jobs_alert_spec demoJobs7).2.1 (List.cons_ne_nil _ _)

/-- C3, refuting theorem: on the HealthStatus the prober produces when
every candidate URL fails, format_worker_health_alert renders the
missing URL as the literal text None instead of the placeholder; the
dict.get defaults for url and error in the source never apply to
prober-produced statuses because check_worker_health always stores
both keys. -/
theorem health_alert_renders_literal_none :
    (check_worker_health Option.none
        (fun _ => ProbeResult.netError "Connection timed out")).healthy = false
  ∧ (check_worker_health Option.none
        (fun _ => ProbeResult.netError "Connection timed out")).url = Option.none
  ∧ format_worker_health_alert (check_worker_health Option.none
        (fun _ => ProbeResult.netError "Connection timed out"))
      = "🔴 <b>WORKER HEALTH ALERT</b>\n\nThe invoicing worker service is not responding!\n\n"
        ++ "❌ Status: Unhealthy\n"
        ++ "🌐 Last checked: None\n"
        ++ "⚠️ Error: Connection timed out\n\n"
        ++ "This means new invoice jobs may not be processed." :=
  ⟨rfl, rfl, rfl⟩

/-- probeFailMsg gives the error text the loop of check_worker_health
records for a failed probe, and Option.none for a 200 response. -/
def probeFailMsg : ProbeResult → Option String
  | ProbeResult.response code _ =>
      if code = 200 then Option.none else Option.some ("HTTP " ++ toString code)
  | ProbeResult.netError msg => Option.some msg

theorem checkWorkerHealthLoop_success (probe : String → ProbeResult)
    (pre : List String) (u : String) (post : List String) (t : ℚ) (hs : HealthStatus)
    (hpre : ∀ v ∈ pre, probeFailMsg (probe (healthUrl v)) ≠ Option.none)
    (hu : probe (healthUrl u) = ProbeResult.response 200 t) :
    checkWorkerHealthLoop probe (pre ++ u :: post) hs =
      { healthy := true, url := Option.some (healthUrl u)
        response_time := Option.some (round2 t), error := Option.none } := by
  induction pre generalizing hs with
  | nil =>
    simp [checkWorkerHealthLoop, hu]
  | cons v vs ih =>
    have hv := hpre v (List.mem_cons_self v vs)
    have hrest : ∀ w ∈ vs, probeFailMsg (probe (healthUrl w)) ≠ Option.none :=
      fun w hw => hpre w (List.mem_cons_of_mem v hw)
    cases hp : probe (healthUrl v) with
    | response code elapsed =>
      have hcode : code ≠ 200 := by
        intro h
        subst h
        rw [hp] at hv
        simp [probeFailMsg] at hv
      simp only [List.cons_append, checkWorkerHealthLoop, hp, if_neg hcode]
      exact ih _ hrest
    | netError msg =>
      simp only [List.cons_append, checkWorkerHealthLoop, hp]
      exact ih _ hrest

theorem checkWorkerHealthLoop_allFail (probe : String → ProbeResult)
    (urls : List String) (hs : HealthStatus)
    (hall : ∀ v ∈ urls, probeFailMsg (probe (healthUrl v)) ≠ Option.none) :
    checkWorkerHealthLoop probe urls hs =
      (match urls.getLast? with
       | Option.none => hs
       | Option.some v => { hs with error := probeFailMsg (probe (healthUrl v)) }) := by
  induction urls generalizing hs with
  | nil => rfl
  | cons v vs ih =>
    have hv := hall v (List.mem_cons_self v vs)
    have hrest : ∀ w ∈ vs, probeFailMsg (probe (healthUrl w)) ≠ Option.none :=
      fun w hw => hall w (List.mem_cons_of_mem v hw)
    cases hp : probe (healthUrl v) with
    | response code elapsed =>
      have hcode : code ≠ 200 := by
        intro h; subst h; rw [hp] at hv; simp [probeFailMsg] at hv
      simp only [checkWorkerHealthLoop, hp, if_neg hcode]
      rw [ih _ hrest]
      cases vs with
      | nil =>
        simp [List.getLast?, probeFailMsg, hp, if_neg hcode]
      | cons w ws =>
        rcases hgl : (w :: ws).getLast? with _ | x
        · exact absurd (List.getLast?_eq_none_iff.mp hgl) (List.cons_ne_nil w ws)
        · simp only [List.getLast?_cons_cons, hgl]
    | netError msg =>
      simp only [checkWorkerHealthLoop, hp]
      rw [ih _ hrest]
      cases vs with
      | nil => simp [List.getLast?, probeFailMsg, hp]
      | cons w ws =>
        rcases hgl : (w :: ws).getLast? with _ | x
        · exact absurd (List.getLast?_eq_none_iff.mp hgl) (List.cons_ne_nil w ws)
        · simp only [List.getLast?_cons_cons, hgl]

/-- C5: check_worker_health tries the candidate URLs in order; when the
URLs split as a failing prefix followed by a URL whose health GET
returns HTTP 200, the result is healthy, records that health URL and
the round-trip time rounded to two decimals, and is independent of
every later URL; when every candidate fails, the result is unhealthy
and carries the error of the last URL (the hard-coded fallback), an
HTTP code text or the network-exception message; being a total
function of the probe outcomes, it returns a structured result on
every input, the image of the Python contract that no exception
reaches the caller. -/
theorem check_worker_health_spec (cfg : Option String) (probe : String → ProbeResult) :
    (∀ pre u post t, workerUrls cfg = pre ++ u :: post →
        (∀ v ∈ pre, probeFailMsg (probe (healthUrl v)) ≠ Option.none) →
        probe (healthUrl u) = ProbeResult.response 200 t →
        check_worker_health cfg probe =
          { healthy := true, url := Option.some (healthUrl u)
            response_time := Option.some (round2 t), error := Option.none })
  ∧ ((∀ v ∈ workerUrls cfg, probeFailMsg (probe (healthUrl v)) ≠ Option.none) →
      check_worker_health cfg probe =
        { healthy := false, url := Option.none, response_time := Option.none
          error := probeFailMsg (probe (healthUrl defaultWorkerUrl)) }) := by
  constructor
  · intro pre u post t hsplit hpre hu
    unfold check_worker_health
    rw [hsplit]
    exact checkWorkerHealthLoop_success probe pre u post t _ hpre hu
  · intro hall
    unfold check_worker_health
    rw [checkWorkerHealthLoop_allFail probe _ _ hall]
    rfl

/-- demoProbe is a concrete network in which the configured URL times
out and the hard-coded fallback answers 200 in a quarter second. -/
def demoProbe : String → ProbeResult := fun url =>
  if url = "https://worker.example/health"
  then ProbeResult.netError "Connection timed out"
  else ProbeResult.response 200 (1 / 4)

/-- Witness for C5: with the configured URL timing out and the fallback
healthy, the prober reports healthy with the fallback health URL. -/
theorem check_worker_health_spec_witness :
    check_worker_health (Option.some "https://worker.example") demoProbe =
      { healthy := true, url := Option.some (healthUrl defaultWorkerUrl)
        response_time := Option.some (round2 (1 / 4)), error := Option.none } :=
  (check_worker_health_spec (Option.some "https://worker.example") demoProbe).1
    ["https://worker.example"] defaultWorkerUrl [] (1 / 4)
    rfl
    (by
      intro v hv
      rw [List.mem_singleton] at hv
      subst hv
      simp [demoProbe, probeFailMsg, healthUrl, rstripSlash])
    (by simp [demoProbe, healthUrl, rstripSlash, defaultWorkerUrl])

theorem build_handle_messages (tg : String → Nat × String) (raw : String) (d : EventDoc) :
    (build_handle tg raw d).messages =
      if statusIsFinal d.status then [buildMessage d] else [] := by
  unfold build_handle
  cases h : statusIsFinal d.status
  · simp [h]
  · simp only [h, if_true]
    split <;> rfl

theorem statusIsFinal_iff (o : Option String) :
    statusIsFinal o = true ↔ ∃ s, o = Option.some s ∧ s ∈ buildFinalStatuses := by
  cases o with
  | none => simp [statusIsFinal]
  | some s => simp [statusIsFinal]

/-- C8: the build notifier posts exactly one message iff the decoded
status is one of SUCCESS, FAILURE, TIMEOUT, CANCELLED; the message
starts with the success marker exactly for SUCCESS and with the
distinct failure marker for every other final status; a non-final
status posts nothing (and the handler, a total function, raises
nothing). -/
theorem build_notifier_final_status_spec (tg : String → Nat × String)
    (raw : String) (d : EventDoc) :
    ((build_handle tg raw d).messages.length = 1 ↔
        ∃ s, d.status = Option.some s ∧ s ∈ buildFinalStatuses)
  ∧ (statusIsFinal d.status = false → (build_handle tg raw d).messages = [])
  ∧ (d.status = Option.some "SUCCESS" →
      (build_handle tg raw d).messages = ["✅" ++ buildBody d])
  ∧ (∀ s, d.status = Option.some s → s ∈ buildFinalStatuses → s ≠ "SUCCESS" →
      (build_handle tg raw d).messages = ["❌" ++ buildBody d])
  ∧ ("✅" : String) ≠ "❌" := by
  refine ⟨?_, ?_, ?_, ?_, by decide⟩
  · rw [build_handle_messages, ← statusIsFinal_iff]
    cases h : statusIsFinal d.status <;> simp [h]
  · intro h; rw [build_handle_messages, h]; rfl
  · intro h
    have hfin : statusIsFinal d.status = true := by
      rw [h]; rfl
    rw [build_handle_messages, hfin, if_pos rfl]
    unfold buildMessage
    rw [if_pos h]
  · intro s hs hmem hne
    have hfin : statusIsFinal d.status = true := by
      rw [hs]; simpa [statusIsFinal] using hmem
    rw [build_handle_messages, hfin, if_pos rfl]
    unfold buildMessage
    rw [if_neg (by rw [hs]; exact fun hc => hne (Option.some.injEq _ _ ▸ hc))]

/-- demoSuccessDoc is the SUCCESS build payload of the test vector. -/
def demoSuccessDoc : EventDoc :=
  { status := Option.some "SUCCESS", projectId := Option.some "p"
    id := Option.some "b1", repoName := Option.some "r"
    branchName := Option.some "main", event_type := Option.none
    invoice_id := Option.none, external_order_id := Option.none
    customer_name := Option.none, amount := Option.none
    currency := Option.none, error_message := Option.none }

/-- demoWorkingDoc is the WORKING build payload of the test vector. -/
def demoWorkingDoc : EventDoc :=
  { demoSuccessDoc with status := Option.some "WORKING" }

/-- demoTg is a Telegram API that accepts every message. -/
def demoTg : String → Nat × String := fun _ => (200, "ok")

/-- Witness for C8: the WORKING payload posts nothing; the SUCCESS
payload posts exactly the success-marker message. -/
theorem build_notifier_final_status_spec_witness :
    (build_handle demoTg "raw" demoWorkingDoc).messages = []
  ∧ (build_handle demoTg "raw" demoSuccessDoc).messages = ["✅" ++ buildBody demoSuccessDoc] :=
  ⟨(build_notifier_final_status_spec demoTg "raw" demoWorkingDoc).2.1 rfl,
   (build_notifier_final_status_spec demoTg "raw" demoSuccessDoc).2.2.1 rfl⟩

/-- C9: when decoding or parsing the inbound payload fails, the
unified notifier — and the build notifier it wraps — catches the
failure, posts no message, and logs the failure text together with the
raw input; both are total functions of their inputs, the image of the
Python contract that the except block lets nothing propagate. -/
theorem decode_failure_spec (botToken chatId : Option String) (tg : String → Nat × String)
    (decode : String → Except String EventDoc) (raw e : String)
    (hbot : pyTruthy botToken = true) (hchat : pyTruthy chatId = true)
    (hdec : decode raw = Except.error e) :
    unified_notifier botToken chatId tg decode raw =
      { messages := []
        logs := ["Error processing unified notification: " ++ e,
                 "Cloud event data: " ++ raw] }
  ∧ build_notifier botToken chatId tg decode raw =
      { messages := []
        logs := ["Error processing build notification: " ++ e,
                 "Cloud event data: " ++ raw] } := by
  constructor
  · unfold unified_notifier
    rw [hbot, hchat, hdec]
    simp
  · unfold build_notifier
    rw [hbot, hchat, hdec]
    simp

/-- Witness for C9 on a malformed payload. -/
theorem decode_failure_spec_witness :
    unified_notifier (Option.some "tok") (Option.some "chat") demoTg
        (fun _ => Except.error "Invalid base64-encoded string") "%%%" =
      { messages := []
        logs := ["Error processing unified notification: Invalid base64-encoded string",
                 "Cloud event data: %%%"] } :=
  (decode_failure_spec (Option.some "tok") (Option.some "chat") demoTg
    (fun _ => Except.error "Invalid base64-encoded string") "%%%"
    "Invalid base64-encoded string" rfl rfl rfl).1

/-- C2, refuting theorem: with DATABASE_URL present in the environment
and a different value in the secret store, get_database_connection
resolves the secret value, not the environment one — on the database
path the environment is never consulted, so resolution does not go
environment first. -/
theorem database_url_ignores_environment :
    resolve_database_url
        (fun k => if k = "DATABASE_URL" then Option.some "postgres://env-db" else Option.none)
        (fun k => if k = "DATABASE_URL" then Option.some "postgres://secret-db" else Option.none)
      = Option.some "postgres://secret-db"
  ∧ (Option.some "postgres://secret-db" : Option String) ≠ Option.some "postgres://env-db" :=
  ⟨rfl, by decide⟩

/-- C2 amended: the alert path resolves bot token and chat id from the
environment first with a named-secret fallback; the event-notifier
path reads BOT_TOKEN and CHAT_ID from the environment only; the
database connection string comes from the DATABASE_URL secret only,
independent of the environment; the worker base URL comes from the
environment with the hard-coded default, never from the secret store. -/
theorem config_resolution_amended (env env2 secrets : String → Option String) :
    (∀ v, env "BOT_TOKEN" = Option.some v → v ≠ "" →
        resolve_alert_bot_token env secrets = Option.some v)
  ∧ (env "BOT_TOKEN" = Option.none →
        resolve_alert_bot_token env secrets = secrets "TELEGRAM_BOT_TOKEN")
  ∧ (∀ v, env "CHAT_ID" = Option.some v → v ≠ "" →
        resolve_alert_chat_id env secrets = Option.some v)
  ∧ (env "CHAT_ID" = Option.none →
        resolve_alert_chat_id env secrets = secrets "TELEGRAM_CHAT_ID")
  ∧ resolve_database_url env secrets = resolve_database_url env2 secrets
  ∧ resolve_database_url env secrets = secrets "DATABASE_URL"
  ∧ (env "WORKER_SERVICE_URL" = Option.none → resolve_worker_url env = defaultWorkerUrl)
  ∧ (∀ v, env "WORKER_SERVICE_URL" = Option.some v → resolve_worker_url env = v)
  ∧ resolve_notifier_bot_token env = env "BOT_TOKEN"
  ∧ resolve_notifier_chat_id env = env "CHAT_ID" := by
  refine ⟨?_, ?_, ?_, ?_, rfl, rfl, ?_, ?_, rfl, rfl⟩
  · intro v hv hne
    unfold resolve_alert_bot_token pyOr
    rw [hv]
    simp [pyTruthy, hne]
  · intro hv
    unfold resolve_alert_bot_token pyOr
    rw [hv]
    rfl
  · intro v hv hne
    unfold resolve_alert_chat_id pyOr
    rw [hv]
    simp [pyTruthy, hne]
  · intro hv
    unfold resolve_alert_chat_id pyOr
    rw [hv]
    rfl
  · intro hv
    unfold resolve_worker_url
    rw [hv]
    rfl
  · intro v hv
    unfold resolve_worker_url
    rw [hv]
    rfl

/-- demoEnv is a concrete environment carrying only BOT_TOKEN. -/
def demoEnv : String → Option String :=
  fun k => if k = "BOT_TOKEN" then Option.some "tok" else Option.none

/-- demoSecrets is a concrete secret store carrying only the Telegram
chat id secret. -/
def demoSecrets : String → Option String :=
  fun k => if k = "TELEGRAM_CHAT_ID" then Option.some "chat-42" else Option.none

/-- Witness for the amended C2: with BOT_TOKEN set in the environment
the alert path uses it, and with CHAT_ID unset the alert path falls
back to the TELEGRAM_CHAT_ID secret. -/
theorem config_resolution_amended_witness :
    resolve_alert_bot_token demoEnv demoSecrets = Option.some "tok"
  ∧ resolve_alert_chat_id demoEnv demoSecrets = Option.some "chat-42" :=
  ⟨(config_resolution_amended demoEnv demoEnv demoSecrets).1 "tok" rfl (by decide),
   ((config_resolution_amended demoEnv demoEnv demoSecrets).2.2.2.1 rfl).trans rfl⟩

/-- C1, refuting theorem: a pass in which connection acquisition
succeeds and the store query then fails returns through the except
handler with the connection acquired but the close line never
executed, in both orchestrators. -/
theorem monitor_close_skipped_on_store_error :
    ((monitor_invoicing_system (Except.ok ()) (Except.error "query failed") 0
        Option.none (fun _ => ProbeResult.netError "down") (fun _ => true)).acquired = true
    ∧ (monitor_invoicing_system (Except.ok ()) (Except.error "query failed") 0
        Option.none (fun _ => ProbeResult.netError "down") (fun _ => true)).released = false)
  ∧ ((monitor_dashboard (Except.ok ()) (Except.error "query failed") 0
        Option.none (fun _ => ProbeResult.netError "down") (fun _ => true)).acquired = true
    ∧ (monitor_dashboard (Except.ok ()) (Except.error "query failed") 0
        Option.none (fun _ => ProbeResult.netError "down") (fun _ => true)).released = false) :=
  ⟨⟨rfl, rfl⟩, ⟨rfl, rfl⟩⟩

/-- C1 amended: in both orchestrators the store connection is released
exactly on passes that run to completion after acquisition; a pass
that fails after the connection was acquired (a store query failure)
returns through the except handler without executing the close. -/
theorem monitor_release_iff_success (acquire : Except String Unit)
    (store : Except String (List Order)) (now : ℚ) (cfg : Option String)
    (probe : String → ProbeResult) (send : String → Bool) :
    ((monitor_invoicing_system acquire store now cfg probe send).acquired = true ↔
        acquire = Except.ok ())
  ∧ ((monitor_invoicing_system acquire store now cfg probe send).released = true ↔
        acquire = Except.ok () ∧ ∃ orders, store = Except.ok orders)
  ∧ ((monitor_dashboard acquire store now cfg probe send).acquired = true ↔
        acquire = Except.ok ())
  ∧ ((monitor_dashboard acquire store now cfg probe send).released = true ↔
        acquire = Except.ok () ∧ ∃ orders, store = Except.ok orders) := by
  rcases acquire with e | u
  · refine ⟨?_, ?_, ?_, ?_⟩ <;> simp [monitor_invoicing_system, monitor_dashboard]
  · cases u
    rcases store with e2 | orders
    · refine ⟨?_, ?_, ?_, ?_⟩ <;> simp [monitor_invoicing_system, monitor_dashboard]
    · refine ⟨?_, ?_, ?_, ?_⟩ <;> simp [monitor_invoicing_system, monitor_dashboard]

/-- Witness for the amended C1: a fully successful pass releases the
connection. -/
theorem monitor_release_iff_success_witness :
    (monitor_invoicing_system (Except.ok ()) (Except.ok []) 0 Option.none
        (fun _ => ProbeResult.response 200 1) (fun _ => true)).released = true :=
  (monitor_release_iff_success (Except.ok ()) (Except.ok []) 0 Option.none
      (fun _ => ProbeResult.response 200 1) (fun _ => true)).2.1.mpr ⟨rfl, [], rfl⟩

theorem composeAlerts_eq_filter (s : List StuckJob) (h : HealthStatus) :
    composeAlerts s h =
      ((if s = [] then [] else [format_stuck_jobs_alert s])
        ++ (if h.healthy then [] else [format_worker_health_alert h])).filter
        (fun a => a ≠ "") := by
  unfold composeAlerts
  by_cases hs : s = [] <;> by_cases hh : h.healthy = true <;>
    by_cases h1 : format_stuck_jobs_alert s = "" <;>
      by_cases h2 : format_worker_health_alert h = "" <;>
        simp [hs, hh, h1, h2, List.filter]

theorem composeAlerts_length_le (s : List StuckJob) (h : HealthStatus) :
    (composeAlerts s h).length ≤ 2 := by
  unfold composeAlerts
  by_cases hs : s.isEmpty <;> by_cases hh : h.healthy = true <;>
    by_cases h1 : format_stuck_jobs_alert s = "" <;>
      by_cases h2 : format_worker_health_alert h = "" <;>
        simp [hs, hh, h1, h2]

/-- C10: on a pass that completes without an unhandled exception, the
alerts_sent field of the returned summary equals the number of
non-empty formatted alerts composed during the pass (at most two), in
both orchestrators, and this count — the whole summary, for the Cloud
Function orchestrator — is unchanged when every Telegram send fails
instead of succeeding or vice versa. -/
theorem alerts_sent_spec (orders : List Order) (now : ℚ) (cfg : Option String)
    (probe : String → ProbeResult) (send send2 : String → Bool) :
    ((monitor_invoicing_system (Except.ok ()) (Except.ok orders) now cfg probe send).summary.map
        (fun s => s.alerts_sent)
      = Option.some ((((if check_stuck_jobs orders now = [] then []
            else [format_stuck_jobs_alert (check_stuck_jobs orders now)])
          ++ (if (check_worker_health cfg probe).healthy then []
            else [format_worker_health_alert (check_worker_health cfg probe)])).filter
            (fun a => a ≠ "")).length))
  ∧ ((monitor_dashboard (Except.ok ()) (Except.ok orders) now cfg probe send).summary.map
        (fun s => s.alerts_sent)
      = Option.some ((((if check_stuck_jobs orders now = [] then []
            else [format_stuck_jobs_alert (check_stuck_jobs orders now)])
          ++ (if (check_worker_health cfg probe).healthy then []
            else [format_worker_health_alert (check_worker_health cfg probe)])).filter
            (fun a => a ≠ "")).length))
  ∧ (monitor_invoicing_system (Except.ok ()) (Except.ok orders) now cfg probe send).summary
      = (monitor_invoicing_system (Except.ok ()) (Except.ok orders) now cfg probe send2).summary
  ∧ (monitor_dashboard (Except.ok ()) (Except.ok orders) now cfg probe send).summary.map
        (fun s => s.alerts_sent)
      = (monitor_dashboard (Except.ok ()) (Except.ok orders) now cfg probe send2).summary.map
        (fun s => s.alerts_sent)
  ∧ (∀ s, (monitor_invoicing_system (Except.ok ()) (Except.ok orders) now cfg probe send).summary
        = Option.some s → s.alerts_sent ≤ 2) := by
  refine ⟨?_, ?_, rfl, rfl, ?_⟩
  · simp only [monitor_invoicing_system, Option.map_some, Option.some.injEq]
    rw [composeAlerts_eq_filter]
    rfl
  · simp only [monitor_dashboard, Option.map_some, Option.some.injEq]
    rw [composeAlerts_eq_filter]
    rfl
  · intro s hs
    simp only [monitor_invoicing_system, Option.some.injEq] at hs
    rw [← hs]
    exact composeAlerts_length_le _ _

/-- Witness for C10: a pass over an empty table with a healthy worker
reports zero alerts sent, at most two. -/
theorem alerts_sent_spec_witness :
    ({ status := "completed", timestamp := 0, stuck_jobs_count := 0
       worker_healthy := true, alerts_sent := 0 } : MonitorSummary).alerts_sent ≤ 2 :=
  (alerts_sent_spec [] 0 Option.none (fun _ => ProbeResult.response 200 1)
      (fun _ => true) (fun _ => false)).2.2.2.2
    { status := "completed", timestamp := 0, stuck_jobs_count := 0
      worker_healthy := true, alerts_sent := 0 } rfl

end TBN
